import Mathlib

/-!
Shallow embedding of `api_server.py` (XHS-Downloader API server).

The file embeds the request-orchestration layer: the module-level
configuration fallback, the `startup_event` bootstrap routine, the
`DownloadRequest` / `DownloadResponse` models and the `download_content`
handler.  External collaborators (the `XHS` extractor class, the two
configuration providers, the filesystem) are parameters of the embedded
functions: their observable outcomes are supplied as oracle values, and
the handler additionally records an event trace (construction, context
enter, extract invocation, release, error logs) so that lifecycle claims
can be stated.
-/

namespace XHSApi

/-- A raised Python exception, as far as the handler's `except` clauses
can distinguish it: FastAPI's `HTTPException` (re-raised by the handler),
`ImportError` (caught by the inner `try` around the load of the `XHS`
class from `source.application`, and by the module-level config `try`),
and every other
`Exception` (caught by the catch-all clauses). -/
inductive PyError where
  | httpException (status : Nat) (detail : String)
  | importError (msg : String)
  | exc (msg : String)
  deriving DecidableEq, Repr

/-- `str(e)` for an exception, as interpolated into f-strings. -/
def pyStr : PyError → String
  | .httpException _ d => d
  | .importError m => m
  | .exc m => m

/-- Whether an exception is FastAPI's `HTTPException` (matched by the
handler's `except HTTPException: raise`). -/
def isHTTPException : PyError → Bool
  | .httpException _ _ => true
  | _ => false

/-- Whether an exception is an `ImportError`. -/
def isImportError : PyError → Bool
  | .importError _ => true
  | _ => false

/-- Python truthiness of an `Optional[str]` value: `None` and the empty
string are falsy, every other string is truthy. -/
def pyTruthyStr : Option String → Bool
  | none => false
  | some s => !s.isEmpty

/-- Python truthiness of the value returned by `xhs.extract(...)` as the
handler tests it with `if result:` — `None` and the empty list are falsy,
a non-empty list is truthy. -/
def pyTruthyResult : Option (List String) → Bool
  | none => false
  | some items => !items.isEmpty

/-- `DownloadRequest` (pydantic model, `api_server.py` lines 140-149),
with the declared defaults. -/
structure DownloadRequest where
  url : String
  save_path : Option String := none
  quality : Option String := some "high"
  cookie : Option String := some ""
  proxy : Option String := none
  image_download : Bool := false
  video_download : Bool := true
  live_download : Bool := false
  deriving DecidableEq, Repr

/-- The `data` dictionary built by `download_content` on success. -/
structure DownloadData where
  url : String
  status : String
  message : String
  result_count : Nat
  results : List String
  timestamp : String
  deriving DecidableEq, Repr

/-- `DownloadResponse` (pydantic model, `api_server.py` lines 151-155). -/
structure DownloadResponse where
  success : Bool
  message : String
  data : Option DownloadData := none
  deriving DecidableEq, Repr

/-- The keyword arguments passed to the `XHS(...)` constructor by
`download_content` (`api_server.py` lines 267-286). -/
structure XHSParams where
  work_path : String
  folder_name : String
  name_format : String
  user_agent : Option String
  cookie : Option String
  proxy : Option String
  timeout : Nat
  max_retry : Nat
  record_data : Bool
  image_format : String
  image_download : Bool
  video_download : Bool
  live_download : Bool
  folder_mode : Bool
  download_record : Bool
  author_archive : Bool
  write_mtime : Bool
  language : String
  deriving DecidableEq, Repr

/-- Observable events of one run of `download_content`, in order. -/
inductive Event where
  | constructed (p : XHSParams)
  | enter
  | extractCall (url : String) (download : Bool) (idx : Option Nat)
  | release
  | logError (msg : String)
  deriving DecidableEq, Repr

/-- Outcomes of the external collaborators consumed by one run of
`download_content`: whether `from source.application import XHS` raises,
whether the `XHS(...)` constructor raises, and what `xhs.extract(...)`
does (raises, or returns a value tested for truthiness). -/
structure ExtractorBehavior where
  loadModule : Option PyError := none
  construct : Option PyError := none
  extract : Except PyError (Option (List String)) := .ok (some [])
  deriving Repr

/-- `Path(__file__).parent` of the server module, an opaque base path. -/
def project_root : String := "/app/XHS-Downloader"

/-- The `XHS(...)` construction arguments for a given request
(`api_server.py` lines 267-286): fixed operational constants plus the
request's cookie/proxy mapped through Python truthiness. -/
def mkXHSParams (req : DownloadRequest) : XHSParams :=
  { work_path := project_root ++ "/downloads"
    folder_name := "APIDownload"
    name_format := "API_作品标题"
    user_agent := none
    cookie := if pyTruthyStr req.cookie then req.cookie else none
    proxy := if pyTruthyStr req.proxy then req.proxy else none
    timeout := 30
    max_retry := 3
    record_data := true
    image_format := "PNG"
    image_download := req.image_download
    video_download := req.video_download
    live_download := req.live_download
    folder_mode := true
    download_record := true
    author_archive := false
    write_mtime := false
    language := "zh_CN" }

/-- The outer `except` clauses of `download_content` (lines 319-328):
`HTTPException` is re-raised to the transport layer, every other
exception is logged and folded into a `success=False` response. -/
def outerCatch (e : PyError) (tr : List Event) :
    Except PyError DownloadResponse × List Event :=
  if isHTTPException e then
    (.error e, tr)
  else
    (.ok { success := false, message := "下载失败: " ++ pyStr e, data := none },
     tr ++ [.logError ("下载请求处理失败: " ++ pyStr e)])

/-- The `/download` handler `download_content` (`api_server.py` lines
248-328), as a function of the request, the collaborators' outcomes and
the completion timestamp `datetime.now().isoformat()`.  The first
component is the value handed to the transport layer: `.ok r` is the
normal JSON response `r` (HTTP 200 under `response_model`), `.error e`
is an exception propagated out of the handler.  The second component is
the event trace. -/
def download_content (req : DownloadRequest) (b : ExtractorBehavior)
    (now : String) : Except PyError DownloadResponse × List Event :=
  match b.loadModule with
  | some (.importError m) =>
      (.ok { success := false, message := "系统错误：无法加载下载模块", data := none },
       [.logError ("无法导入XHS类: " ++ m)])
  | some e => outerCatch e []
  | none =>
    match b.construct with
    | some e => outerCatch e []
    | none =>
      let tr : List Event :=
        [.constructed (mkXHSParams req), .enter,
         .extractCall req.url true none, .release]
      match b.extract with
      | .error e => outerCatch e tr
      | .ok result =>
        if pyTruthyResult result then
          let items := result.getD []
          (.ok { success := true, message := "下载成功完成",
                 data := some { url := req.url, status := "completed",
                                message := "下载完成",
                                result_count := items.length,
                                results := items, timestamp := now } },
           tr)
        else
          (.ok { success := false, message := "下载失败：未获取到内容", data := none },
           tr)

/-- Number of `extract` invocations recorded in a trace. -/
def extractCallCount (tr : List Event) : Nat :=
  (tr.filter fun e => match e with | .extractCall _ _ _ => true | _ => false).length

/-- Number of session releases (`__aexit__` runs) recorded in a trace. -/
def releaseCount (tr : List Event) : Nat :=
  (tr.filter fun e => match e with | .release => true | _ => false).length

/-- Number of `XHS(...)` constructions recorded in a trace. -/
def constructedCount (tr : List Event) : Nat :=
  (tr.filter fun e => match e with | .constructed _ => true | _ => false).length

/-! ### Module-level configuration fallback (`api_server.py` lines 47-62) -/

/-- Which configuration profile the module-level fallback activated. -/
inductive ActiveProfile where
  | production
  | simple
  deriving DecidableEq, Repr

/-- The module-level configuration fallback (`api_server.py` lines
47-62): the whole production block (the load of
`config.production_config`, `setup_production_environment()`,
`get_production_config()`,
`get_production_auth().get_environment_info()`) runs under a single
`try` whose only clause is `except ImportError`; on that clause the
simple block runs with no surrounding handler of its own.  `prod` and
`simple` are the first exceptions (if any) raised inside each block;
`.error e` is an unhandled module-level exception, i.e. the process
fails to boot. -/
def resolveConfig (prod simple : Option PyError) :
    Except PyError ActiveProfile :=
  match prod with
  | none => .ok .production
  | some (.importError _) =>
      match simple with
      | none => .ok .simple
      | some e => .error e
  | some e => .error e

/-! ### Startup bootstrap (`api_server.py` lines 100-138) -/

/-- A filesystem as the set of existing directory paths, with an oracle
`fail` giving the environmental error (permissions, I/O, ...) raised by
`Path.mkdir` at a path, if any. -/
def mkdir (fail : String → Option PyError) (exist_ok : Bool)
    (fs : List String) (p : String) : Except PyError (List String) :=
  match fail p with
  | some e => .error e
  | none =>
    if p ∈ fs then
      if exist_ok then .ok fs
      else .error (.exc ("FileExistsError: " ++ p))
    else .ok (fs ++ [p])

/-- Run `mkdir(exist_ok=True)` over a list of paths in order, stopping
at the first raised error; returns the filesystem after the directories
actually created, and the raised error if any. -/
def runMkdirs (fail : String → Option PyError) :
    List String → List String → List String × Option PyError
  | fs, [] => (fs, none)
  | fs, p :: ps =>
    match mkdir fail true fs p with
    | .error e => (fs, some e)
    | .ok fs2 => runMkdirs fail fs2 ps

/-- The four directories ensured by `startup_event`, in creation order. -/
def bootstrapPaths : List String :=
  [project_root ++ "/downloads", project_root ++ "/temp",
   project_root ++ "/Volume", project_root ++ "/logs"]

/-- `startup_event` (`api_server.py` lines 100-138): creates the four
bootstrap directories with `exist_ok=True` inside a `try` whose
`except Exception` clause only logs.  Returns the resulting filesystem
and the log lines; the `Except` layer records whether an exception
escapes the routine — the catch-all means every outcome is `.ok`. -/
def startup_event (fail : String → Option PyError) (fs : List String) :
    Except PyError (List String × List String) :=
  match runMkdirs fail fs bootstrapPaths with
  | (fs2, none) =>
      .ok (fs2, ["✅ API服务器启动成功"])
  | (fs2, some e) =>
      .ok (fs2, ["❌ API服务器启动失败: " ++ pyStr e])

/-! ### Helper lemmas -/

lemma extractCallCount_append (a b : List Event) :
    extractCallCount (a ++ b) = extractCallCount a + extractCallCount b := by
  simp [extractCallCount, List.filter_append]

lemma releaseCount_append (a b : List Event) :
    releaseCount (a ++ b) = releaseCount a + releaseCount b := by
  simp [releaseCount, List.filter_append]

/-- After a successful module load and construction, the trace of
`download_content` is the construct/enter/extract/release sequence,
followed by at most one error-log entry (from the outer catch-all). -/
lemma download_content_trace (req : DownloadRequest) (b : ExtractorBehavior)
    (now : String) (hm : b.loadModule = none) (hc : b.construct = none) :
    ∃ logs : List Event,
      (download_content req b now).2 =
        [.constructed (mkXHSParams req), .enter,
         .extractCall req.url true none, .release] ++ logs ∧
      (logs = [] ∨ ∃ m, logs = [.logError m]) := by
  rcases hx : b.extract with e | r
  · by_cases hh : isHTTPException e = true
    · exact ⟨[], by simp [download_content, hm, hc, hx, outerCatch, hh], Or.inl rfl⟩
    · refine ⟨[.logError ("下载请求处理失败: " ++ pyStr e)], ?_, Or.inr ⟨_, rfl⟩⟩
      simp [download_content, hm, hc, hx, outerCatch, hh]
  · refine ⟨[], ?_, Or.inl rfl⟩
    by_cases ht : pyTruthyResult r = true
    · simp [download_content, hm, hc, hx, ht]
    · simp [download_content, hm, hc, hx, ht]

/-! ### Claims -/

/-- C1 counterexample: a request whose `url` is the empty string is not
rejected before orchestration.  With the download module loading,
construction succeeding and extraction finding nothing, the handler
constructs the `XHS` extractor once and invokes extraction once — not
zero times as the claim demands — and the `success:false` response comes
from the no-content branch after extraction, not from an up-front
rejection. -/
theorem C1_counterexample :
    ¬ extractCallCount (download_content { url := "" } { } "t").2 = 0 ∧
    extractCallCount (download_content { url := "" } { } "t").2 = 1 ∧
    constructedCount (download_content { url := "" } { } "t").2 = 1 ∧
    (download_content { url := "" } { } "t").1 =
      .ok { success := false, message := "下载失败：未获取到内容", data := none } :=
  ⟨by decide, by decide, by decide, rfl⟩

/-- C1 (amended): a download request with an empty `url` is not rejected
before orchestration: whenever the download module loads and the
constructor succeeds, the handler constructs the extractor and invokes
extraction exactly once, passing the empty url through, and when that
extraction returns no content (empty or absent result) the response has
`success:false`. -/
theorem C1_empty_url_reaches_extractor (b : ExtractorBehavior) (now : String)
    (hm : b.loadModule = none) (hc : b.construct = none) :
    extractCallCount (download_content { url := "" } b now).2 = 1 ∧
    Event.extractCall "" true none ∈ (download_content { url := "" } b now).2 ∧
    ((b.extract = .ok (some []) ∨ b.extract = .ok none) →
      (download_content { url := "" } b now).1 =
        .ok { success := false, message := "下载失败：未获取到内容", data := none }) := by
  obtain ⟨logs, htr, hl⟩ := download_content_trace { url := "" } b now hm hc
  refine ⟨?_, ?_, ?_⟩
  · rw [htr, extractCallCount_append]
    rcases hl with h | ⟨m, h⟩ <;> subst h <;> rfl
  · rw [htr]
    exact List.mem_append_left _ (by simp)
  · rintro (h | h) <;> simp [download_content, hm, hc, h, pyTruthyResult]

/-- C1 witness: for the concrete empty-url request with an extractor
returning an empty list, extraction is invoked exactly once and the
response is the no-content failure. -/
theorem C1_empty_url_reaches_extractor_witness :
    extractCallCount (download_content { url := "" } { } "t").2 = 1 ∧
    (download_content { url := "" } { } "t").1 =
      .ok { success := false, message := "下载失败：未获取到内容", data := none } :=
  ⟨(C1_empty_url_reaches_extractor { } "t" rfl rfl).1,
   (C1_empty_url_reaches_extractor { } "t" rfl rfl).2.2 (Or.inl rfl)⟩

/-- C2: when module load and construction succeed, a non-empty result
list of length `n` yields `success:true` with `data.result_count = n`,
`data.results` the extractor-provided list in order and the completion
timestamp; an empty or absent (`None`) result yields `success:false`
with the "no content retrieved" message and no data — in both cases as a
normal returned response, with no exception reaching the transport
layer. -/
theorem C2_result_mapping (req : DownloadRequest) (b : ExtractorBehavior)
    (now : String) (hm : b.loadModule = none) (hc : b.construct = none) :
    (∀ items : List String, items ≠ [] → b.extract = .ok (some items) →
      (download_content req b now).1 =
        .ok { success := true, message := "下载成功完成",
              data := some { url := req.url, status := "completed",
                             message := "下载完成",
                             result_count := items.length, results := items,
                             timestamp := now } }) ∧
    ((b.extract = .ok (some []) ∨ b.extract = .ok none) →
      (download_content req b now).1 =
        .ok { success := false, message := "下载失败：未获取到内容", data := none }) := by
  constructor
  · intro items hne hx
    rcases items with _ | ⟨a, as⟩
    · exact absurd rfl hne
    · simp [download_content, hm, hc, hx, pyTruthyResult]
  · rintro (h | h) <;> simp [download_content, hm, hc, h, pyTruthyResult]

/-- C2 witness: concrete instances of both branches — a two-element
extraction result yields `success:true` with `result_count = 2` and the
results in order; an empty extraction result yields the no-content
failure. -/
theorem C2_result_mapping_witness :
    (download_content { url := "u" } { extract := .ok (some ["a", "b"]) } "t").1 =
      .ok { success := true, message := "下载成功完成",
            data := some { url := "u", status := "completed", message := "下载完成",
                           result_count := 2, results := ["a", "b"],
                           timestamp := "t" } } ∧
    (download_content { url := "u" } { extract := .ok (some []) } "t").1 =
      .ok { success := false, message := "下载失败：未获取到内容", data := none } :=
  ⟨(C2_result_mapping { url := "u" } { extract := .ok (some ["a", "b"]) } "t"
      rfl rfl).1 ["a", "b"] (by simp) rfl,
   (C2_result_mapping { url := "u" } { extract := .ok (some []) } "t"
      rfl rfl).2 (Or.inl rfl)⟩

/-- C3: when module load and construction succeed, the session release
hook (`__aexit__` of `async with xhs`) runs exactly once on every exit
path of the extraction step — extraction returning results, returning no
content, or raising any error. -/
theorem C3_release_exactly_once (req : DownloadRequest) (b : ExtractorBehavior)
    (now : String) (hm : b.loadModule = none) (hc : b.construct = none) :
    releaseCount (download_content req b now).2 = 1 := by
  obtain ⟨logs, htr, hl⟩ := download_content_trace req b now hm hc
  rw [htr, releaseCount_append]
  rcases hl with h | ⟨m, h⟩ <;> subst h <;> rfl

/-- C3 witness: with an extractor that raises mid-extraction, the
release hook still runs exactly once. -/
theorem C3_release_exactly_once_witness :
    releaseCount
      (download_content { url := "u" } { extract := .error (.exc "boom") } "t").2 = 1 :=
  C3_release_exactly_once { url := "u" } { extract := .error (.exc "boom") } "t" rfl rfl

/-- C4 counterexample: an `HTTPException` raised during extraction is
re-raised by the handler (`except HTTPException: raise`), so this error
IS propagated to the transport layer rather than folded into a
`success:false` response, contrary to the claim's "any error". -/
theorem C4_counterexample :
    (download_content { url := "u" }
        { extract := .error (.httpException 401 "auth expired") } "t").1 =
      .error (.httpException 401 "auth expired") := rfl

/-- C4 (amended): any error other than the framework's `HTTPException`
raised during extractor construction or extraction yields a
normal-shaped `success:false` response whose message is the stringified
error appended to the failure prefix; an `HTTPException` raised there is
instead re-raised to the transport layer. -/
theorem C4_errors_folded (req : DownloadRequest) (b : ExtractorBehavior)
    (now : String) (e : PyError) (hm : b.loadModule = none)
    (hh : isHTTPException e = false)
    (h : b.construct = some e ∨ (b.construct = none ∧ b.extract = .error e)) :
    (download_content req b now).1 =
      .ok { success := false, message := "下载失败: " ++ pyStr e, data := none } := by
  rcases h with hcon | ⟨hcon, hx⟩
  · simp [download_content, hm, hcon, outerCatch, hh]
  · simp [download_content, hm, hcon, hx, outerCatch, hh]

/-- C4 witness: a concrete non-HTTP error raised by the constructor is
folded into a `success:false` response with the stringified error. -/
theorem C4_errors_folded_witness :
    (download_content { url := "u" } { construct := some (.exc "init fail") } "t").1 =
      .ok { success := false, message := "下载失败: init fail", data := none } :=
  C4_errors_folded { url := "u" } { construct := some (.exc "init fail") } "t"
    (.exc "init fail") rfl rfl (Or.inl rfl)

/-- C5 counterexample: a failure in the production configuration block
that is not an `ImportError` (e.g. malformed data raising a `ValueError`
during `get_production_config()` or `setup_production_environment()`) is
not caught by the `except ImportError` clause: it propagates out of the
module-level code and aborts boot, instead of falling back to the simple
provider — even though the simple provider would load fine. -/
theorem C5_counterexample :
    resolveConfig (some (.exc "malformed production config")) none =
      .error (.exc "malformed production config") := rfl

/-- C5 (amended): the fallback triggers exactly on `ImportError`: if the
production block succeeds, the production profile alone is activated; if
it raises `ImportError` and the simple block loads, the simple profile
alone is activated and boot proceeds to a serving state; any
non-`ImportError` failure in the production block propagates and aborts
boot. -/
theorem C5_fallback_on_import_error (prod simple : Option PyError) :
    (prod = none → resolveConfig prod simple = .ok .production) ∧
    (∀ m, prod = some (.importError m) → simple = none →
      resolveConfig prod simple = .ok .simple) ∧
    (∀ e, prod = some e → isImportError e = false →
      resolveConfig prod simple = .error e) := by
  refine ⟨?_, ?_, ?_⟩
  · rintro rfl; rfl
  · rintro m rfl rfl; rfl
  · rintro e rfl he
    cases e <;> simp_all [resolveConfig, isImportError]

/-- C5 witness: a missing production provider (ImportError) with a
loading simple provider activates exactly the simple profile. -/
theorem C5_fallback_on_import_error_witness :
    resolveConfig (some (.importError "No module named config.production_config"))
      none = .ok .simple :=
  (C5_fallback_on_import_error
      (some (.importError "No module named config.production_config")) none).2.1
    "No module named config.production_config" rfl rfl

/-- Whether the handler's outcome is a normal returned response (HTTP
200 under `response_model`) rather than an exception propagated to the
transport layer. -/
def isNormalResponse : Except PyError DownloadResponse → Bool
  | .ok _ => true
  | .error _ => false

/-- C6 counterexample: when the download module fails to load, the
handler returns a normal `success:false` response (HTTP 200 under
`response_model=DownloadResponse`), not the 500-class transport response
the claim describes. -/
theorem C6_counterexample :
    (download_content { url := "u" }
        { loadModule := some (.importError "No module named source.application") }
        "t").1 =
      .ok { success := false, message := "系统错误：无法加载下载模块", data := none } ∧
    isNormalResponse
      (download_content { url := "u" }
        { loadModule := some (.importError "No module named source.application") }
        "t").1 = true :=
  ⟨rfl, rfl⟩

/-- C6 (amended): when the download module fails to load, the handler
returns a generic internal-failure shape — a normal `success:false`
response (HTTP 200, not a 500-class transport response) with a fixed
redacted message; the import error's detail is logged but not returned,
and no extractor is constructed or invoked. -/
theorem C6_module_load_failure (req : DownloadRequest) (b : ExtractorBehavior)
    (now : String) (m : String) (hm : b.loadModule = some (.importError m)) :
    (download_content req b now).1 =
      .ok { success := false, message := "系统错误：无法加载下载模块", data := none } ∧
    isNormalResponse (download_content req b now).1 = true ∧
    (download_content req b now).2 = [.logError ("无法导入XHS类: " ++ m)] ∧
    constructedCount (download_content req b now).2 = 0 ∧
    extractCallCount (download_content req b now).2 = 0 := by
  have h2 : (download_content req b now).2 = [.logError ("无法导入XHS类: " ++ m)] := by
    simp [download_content, hm]
  have h1 : (download_content req b now).1 =
      .ok { success := false, message := "系统错误：无法加载下载模块", data := none } := by
    simp [download_content, hm]
  exact ⟨h1, by rw [h1]; rfl, h2, by rw [h2]; rfl, by rw [h2]; rfl⟩

/-- C6 witness: concrete instance of the module-load-failure path. -/
theorem C6_module_load_failure_witness :
    (download_content { url := "u" }
        { loadModule := some (.importError "no module") } "t").1 =
      .ok { success := false, message := "系统错误：无法加载下载模块", data := none } ∧
    extractCallCount
      (download_content { url := "u" }
        { loadModule := some (.importError "no module") } "t").2 = 0 :=
  ⟨(C6_module_load_failure { url := "u" }
      { loadModule := some (.importError "no module") } "t" "no module" rfl).1,
   (C6_module_load_failure { url := "u" }
      { loadModule := some (.importError "no module") } "t" "no module" rfl).2.2.2.2⟩

/-- The failure-free filesystem oracle: `Path.mkdir` raises nothing. -/
def noFail : String → Option PyError := fun _ => none

lemma runMkdirs_noFail_spec (ps : List String) (fs : List String) :
    ∃ fs2, runMkdirs noFail fs ps = (fs2, none) ∧
      (∀ q ∈ fs, q ∈ fs2) ∧ (∀ p ∈ ps, p ∈ fs2) := by
  induction ps generalizing fs with
  | nil => exact ⟨fs, rfl, fun q hq => hq, by simp⟩
  | cons p ps ih =>
    by_cases hp : p ∈ fs
    · obtain ⟨fs2, h1, h2, h3⟩ := ih fs
      refine ⟨fs2, ?_, h2, ?_⟩
      · simpa [runMkdirs, mkdir, noFail, hp] using h1
      · intro q hq
        rcases List.mem_cons.mp hq with rfl | hq
        · exact h2 _ hp
        · exact h3 _ hq
    · obtain ⟨fs2, h1, h2, h3⟩ := ih (fs ++ [p])
      refine ⟨fs2, ?_, ?_, ?_⟩
      · simpa [runMkdirs, mkdir, noFail, hp] using h1
      · intro q hq
        exact h2 _ (List.mem_append_left _ hq)
      · intro q hq
        rcases List.mem_cons.mp hq with rfl | hq
        · exact h2 _ (List.mem_append_right _ (by simp))
        · exact h3 _ hq

lemma runMkdirs_noFail_fixed (ps : List String) (fs : List String)
    (h : ∀ p ∈ ps, p ∈ fs) : runMkdirs noFail fs ps = (fs, none) := by
  induction ps with
  | nil => rfl
  | cons p ps ih =>
    have hp : p ∈ fs := h p (by simp)
    have hrest := ih (fun q hq => h q (List.mem_cons_of_mem _ hq))
    simpa [runMkdirs, mkdir, noFail, hp] using hrest

/-- C7: with no environmental filesystem failure, the bootstrap routine
is idempotent — the first run creates the four directories without
error, the second run over the resulting filesystem returns the same
directory set with no error, all four bootstrap directories are present,
and creating an already-existing directory with `exist_ok=True` is a
no-op, not an error. -/
theorem C7_bootstrap_idempotent (fs : List String) :
    (runMkdirs noFail fs bootstrapPaths).2 = none ∧
    startup_event noFail fs =
      .ok ((runMkdirs noFail fs bootstrapPaths).1, ["✅ API服务器启动成功"]) ∧
    startup_event noFail (runMkdirs noFail fs bootstrapPaths).1 =
      .ok ((runMkdirs noFail fs bootstrapPaths).1, ["✅ API服务器启动成功"]) ∧
    (∀ p, p ∈ bootstrapPaths → p ∈ (runMkdirs noFail fs bootstrapPaths).1) ∧
    (∀ p fs2, p ∈ fs2 → mkdir noFail true fs2 p = .ok fs2) := by
  obtain ⟨fs2, h1, hsub, hpaths⟩ := runMkdirs_noFail_spec bootstrapPaths fs
  have hfix : runMkdirs noFail fs2 bootstrapPaths = (fs2, none) :=
    runMkdirs_noFail_fixed bootstrapPaths fs2 hpaths
  refine ⟨by rw [h1], ?_, ?_, ?_, ?_⟩
  · unfold startup_event
    rw [h1]
  · unfold startup_event
    rw [h1]
    simp only
    rw [hfix]
  · intro p hp
    rw [h1]
    exact hpaths p hp
  · intro p fs3 hp
    simp [mkdir, noFail, hp]

/-- C7 witness: starting from an empty filesystem, a second bootstrap
run over the first run's result is a no-op with no error; the downloads
directory is present; and re-creating an existing directory is a no-op. -/
theorem C7_bootstrap_idempotent_witness :
    startup_event noFail (runMkdirs noFail [] bootstrapPaths).1 =
      .ok ((runMkdirs noFail [] bootstrapPaths).1, ["✅ API服务器启动成功"]) ∧
    (project_root ++ "/downloads") ∈ (runMkdirs noFail [] bootstrapPaths).1 ∧
    mkdir noFail true [project_root ++ "/logs"] (project_root ++ "/logs") =
      .ok [project_root ++ "/logs"] :=
  ⟨(C7_bootstrap_idempotent []).2.2.1,
   (C7_bootstrap_idempotent []).2.2.2.1 _ (by simp [bootstrapPaths]),
   (C7_bootstrap_idempotent []).2.2.2.2 _ _ (by simp)⟩

/-- C8: any filesystem failure during the bootstrap routine is
non-fatal: `startup_event` always returns normally (the catch-all
`except Exception` swallows every raised error), and on failure the
routine completes with the error logged taking effect only up to the
directories already created — nothing is re-raised or surfaced to
callers. -/
theorem C8_bootstrap_failures_nonfatal (fail : String → Option PyError)
    (fs : List String) :
    (∃ r, startup_event fail fs = .ok r) ∧
    (∀ e fs2, runMkdirs fail fs bootstrapPaths = (fs2, some e) →
      startup_event fail fs = .ok (fs2, ["❌ API服务器启动失败: " ++ pyStr e])) := by
  constructor
  · rcases h : runMkdirs fail fs bootstrapPaths with ⟨fs2, err⟩
    unfold startup_event
    rw [h]
    cases err <;> exact ⟨_, rfl⟩
  · intro e fs2 h
    unfold startup_event
    rw [h]

/-- C8 witness: with a permission failure on the temp directory, the
bootstrap completes normally, having created only the downloads
directory and logged the failure. -/
theorem C8_bootstrap_failures_nonfatal_witness :
    startup_event
      (fun p => if p = project_root ++ "/temp"
                then some (.exc "Permission denied") else none) [] =
      .ok ([project_root ++ "/downloads"],
           ["❌ API服务器启动失败: Permission denied"]) :=
  (C8_bootstrap_failures_nonfatal
      (fun p => if p = project_root ++ "/temp"
                then some (.exc "Permission denied") else none) []).2
    (.exc "Permission denied") [project_root ++ "/downloads"] (by decide)

/-- C9: for every request on which module load and construction succeed,
the extractor is constructed with the fixed operational constants
`timeout=30` and `max_retry=3` independent of the request, extraction is
invoked exactly once — also when it fails, so the orchestrator never
re-invokes it — and every recorded invocation carries `download=true`
and no selective index. -/
theorem C9_fixed_constants_single_invocation (req : DownloadRequest)
    (b : ExtractorBehavior) (now : String)
    (hm : b.loadModule = none) (hc : b.construct = none) :
    (mkXHSParams req).timeout = 30 ∧ (mkXHSParams req).max_retry = 3 ∧
    Event.constructed (mkXHSParams req) ∈ (download_content req b now).2 ∧
    extractCallCount (download_content req b now).2 = 1 ∧
    (∀ u d i, Event.extractCall u d i ∈ (download_content req b now).2 →
      u = req.url ∧ d = true ∧ i = none) := by
  obtain ⟨logs, htr, hl⟩ := download_content_trace req b now hm hc
  refine ⟨rfl, rfl, ?_, ?_, ?_⟩
  · rw [htr]
    exact List.mem_append_left _ (by simp)
  · rw [htr, extractCallCount_append]
    rcases hl with h | ⟨m, h⟩ <;> subst h <;> rfl
  · intro u d i hmem
    rw [htr] at hmem
    rcases hl with h | ⟨m, h⟩ <;> subst h <;> simp at hmem <;>
      exact ⟨hmem.1, hmem.2.1, hmem.2.2⟩

/-- C9 witness: with a failing extractor, the constants are 30 and 3 and
extraction is still invoked exactly once (no orchestrator retry). -/
theorem C9_fixed_constants_single_invocation_witness :
    (mkXHSParams { url := "u" }).timeout = 30 ∧
    (mkXHSParams { url := "u" }).max_retry = 3 ∧
    extractCallCount
      (download_content { url := "u" } { extract := .error (.exc "boom") } "t").2 = 1 :=
  ⟨(C9_fixed_constants_single_invocation { url := "u" }
      { extract := .error (.exc "boom") } "t" rfl rfl).1,
   (C9_fixed_constants_single_invocation { url := "u" }
      { extract := .error (.exc "boom") } "t" rfl rfl).2.1,
   (C9_fixed_constants_single_invocation { url := "u" }
      { extract := .error (.exc "boom") } "t" rfl rfl).2.2.2.1⟩

/-- C10: the request model's declared defaults are `cookie = ""` and
`proxy = None`, and the constructor arguments map an empty-string or
absent cookie (resp. proxy) to `cookie=None` (resp. `proxy=None`): at
the extractor interface an empty string is indistinguishable from an
omitted value. -/
theorem C10_empty_cookie_proxy_normalized (req : DownloadRequest) (u : String) :
    (({ url := u } : DownloadRequest).cookie = some "" ∧
     ({ url := u } : DownloadRequest).proxy = none) ∧
    ((req.cookie = some "" ∨ req.cookie = none) →
      (mkXHSParams req).cookie = none) ∧
    ((req.proxy = some "" ∨ req.proxy = none) →
      (mkXHSParams req).proxy = none) := by
  refine ⟨⟨rfl, rfl⟩, ?_, ?_⟩ <;>
    rintro (h | h) <;> simp [mkXHSParams, pyTruthyStr, h] <;> rfl

/-- C10 witness: a request with the default empty-string cookie and an
explicit empty-string proxy is constructed with `cookie=None` and
`proxy=None`. -/
theorem C10_empty_cookie_proxy_normalized_witness :
    (mkXHSParams { url := "u" }).cookie = none ∧
    (mkXHSParams { url := "u", proxy := some "" }).proxy = none :=
  ⟨(C10_empty_cookie_proxy_normalized { url := "u" } "u").2.1 (Or.inl rfl),
   (C10_empty_cookie_proxy_normalized { url := "u", proxy := some "" } "u").2.2
     (Or.inl rfl)⟩

end XHSApi
